import Mathlib

/-!
Verification of the Member staking ledger (`registry/src/accounts/member.rs`).

The ledger tracks a member's stake across two asset classes (SRM and the
"mega" variant MSRM): reserve balances (`stake_intent`, `mega_stake_intent`),
staking-pool-token balances (`spt_amount`, `spt_mega_amount`), and two
principal-tracking books (`main`, `delegate`).

All `u64` fields are embedded as `Nat`; arithmetic is performed modulo
`2 ^ 64` (`wadd`, `wsub`), matching the wrapping semantics of the compiled
release build. The `assert!` calls in `set_delegate` are modelled by an
`Option` result (`none` = fatal abort), and `spt_did_create`, which mutates
`&mut self` before its fallible pricing call, is modelled as returning the
final state together with the `Result`.
-/

/-- `2 ^ 64`, the modulus of `u64` arithmetic. -/
def U64size : Nat := 18446744073709551616

/-- Wrapping `u64` addition. -/
def wadd (a b : Nat) : Nat := (a + b) % U64size

/-- Wrapping `u64` subtraction (for arguments below `U64size`). -/
def wsub (a b : Nat) : Nat := (a + (U64size - b % U64size)) % U64size

theorem U64size_eq : U64size = 2 ^ 64 := by decide

theorem wadd_eq_of_lt (a b : Nat) (h : a + b < U64size) : wadd a b = a + b := by
  unfold wadd U64size at *
  omega

theorem wsub_eq_of_le (a b : Nat) (ha : a < U64size) (hb : b ≤ a) : wsub a b = a - b := by
  unfold wsub U64size at *
  omega

theorem wsub_wadd_cancel (a b : Nat) (ha : a < U64size) (hb : b < U64size) :
    wsub (wadd a b) b = a := by
  unfold wadd wsub U64size at *
  omega

theorem wadd_wsub_cancel (a b : Nat) (ha : a < U64size) (hb : b ≤ a) :
    wadd (wsub a b) b = a := by
  unfold wadd wsub U64size at *
  omega

/-- Opaque account identifier (`solana_sdk::pubkey::Pubkey`). -/
abbrev Pubkey := Nat

/-- The recoverable error kinds of the registry used by the Member ledger:
`InsufficientStakeIntentBalance`, `InsufficientBalance`, and the errors
propagated from the pricing collaborator (collapsed into `PricingError`). -/
inductive RegistryError where
  | InsufficientStakeIntentBalance
  | InsufficientBalance
  | PricingError
deriving DecidableEq, Repr

/-- Modelled from the spec: the pricing collaborator `PoolPrices`
(`registry/src/accounts/entity.rs`, not part of the sources under
verification) exposes
`basket_quantities(pool_share_amount: u64, is_mega: bool) -> Result<[u64; 2], PricingError>`,
returning the redemption basket `[primary_qty, mega_qty]` backing the given
amount of pool-share tokens, or an error if the pool state is invalid. -/
structure PoolPrices where
  basket_quantities : Nat → Bool → Except RegistryError (Nat × Nat)

/-- Cumulative principal deposited under a book, per asset class. -/
structure Balances where
  deposit : Nat
  mega_deposit : Nat
deriving DecidableEq, Repr

/-- `Balances::is_empty`: `self.deposit + self.mega_deposit == 0`
(wrapping `u64` addition). -/
def Balances.is_empty (b : Balances) : Bool :=
  wadd b.deposit b.mega_deposit == 0

/-- An owner identifier plus its principal record. -/
structure Book where
  owner : Pubkey
  balances : Balances
deriving DecidableEq, Repr

/-- Emergency-recovery authority descriptor (data only). -/
structure Watchtower where
  authority : Pubkey
  dst : Pubkey
deriving DecidableEq, Repr

/-- The balance subaccounts that partition the Member's stake balance. -/
structure MemberBooks where
  spt_amount : Nat
  spt_mega_amount : Nat
  stake_intent : Nat
  mega_stake_intent : Nat
  main : Book
  delegate : Book
deriving DecidableEq, Repr

/-- The Member account. -/
structure Member where
  initialized : Bool
  registrar : Pubkey
  entity : Pubkey
  beneficiary : Pubkey
  generation : Nat
  watchtower : Watchtower
  books : MemberBooks
  last_active_prices : PoolPrices

/-- All `u64` fields of a `MemberBooks` are below `2 ^ 64`. -/
def MemberBooks.WF (b : MemberBooks) : Prop :=
  b.spt_amount < U64size ∧ b.spt_mega_amount < U64size ∧
  b.stake_intent < U64size ∧ b.mega_stake_intent < U64size ∧
  b.main.balances.deposit < U64size ∧ b.main.balances.mega_deposit < U64size ∧
  b.delegate.balances.deposit < U64size ∧ b.delegate.balances.mega_deposit < U64size

instance (b : MemberBooks) : Decidable b.WF := by
  unfold MemberBooks.WF
  infer_instance

/-- `Member::can_afford`. -/
def Member.can_afford (m : Member) (prices : PoolPrices) (spt_amount : Nat) (mega : Bool) :
    Except RegistryError Bool :=
  match prices.basket_quantities spt_amount mega with
  | Except.error e => Except.error e
  | Except.ok purchase_price =>
    if m.books.stake_intent < purchase_price.1 then
      Except.error RegistryError.InsufficientStakeIntentBalance
    else if mega then
      if m.books.mega_stake_intent < purchase_price.2 then
        Except.error RegistryError.InsufficientStakeIntentBalance
      else
        Except.ok true
    else
      Except.ok true

/-- `Member::can_withdraw`. Both baskets are computed (and can fail) before
any balance rule is checked, exactly as in the source. -/
def Member.can_withdraw (m : Member) (prices : PoolPrices) (amount : Nat) (mega : Bool)
    (owner : Pubkey) : Except RegistryError Bool :=
  match prices.basket_quantities m.books.spt_amount false with
  | Except.error e => Except.error e
  | Except.ok basket =>
    match prices.basket_quantities m.books.spt_mega_amount true with
    | Except.error e => Except.error e
    | Except.ok mega_basket =>
      if mega then
        if m.books.mega_stake_intent < amount then
          Except.error RegistryError.InsufficientStakeIntentBalance
        else if m.books.delegate.owner = owner then
          Except.ok true
        else if wsub (wadd basket.2 m.books.mega_stake_intent) amount <
            m.books.delegate.balances.mega_deposit then
          Except.error RegistryError.InsufficientBalance
        else
          Except.ok true
      else
        if m.books.stake_intent < amount then
          Except.error RegistryError.InsufficientStakeIntentBalance
        else if m.books.delegate.owner = owner then
          Except.ok true
        else if wsub (wadd (wadd basket.1 mega_basket.1) m.books.stake_intent) amount <
            m.books.delegate.balances.deposit then
          Except.error RegistryError.InsufficientBalance
        else
          Except.ok true

/-- `Member::stake_is_empty`. -/
def Member.stake_is_empty (m : Member) : Bool :=
  m.books.spt_amount == 0 && m.books.spt_mega_amount == 0

/-- `Member::set_delegate`; the two `assert!`s are modelled by `none`. -/
def Member.set_delegate (m : Member) (delegate : Pubkey) : Option Member :=
  if m.books.delegate.balances.deposit = 0 ∧ m.books.delegate.balances.mega_deposit = 0 then
    some { m with books := { m.books with
      delegate := { owner := delegate, balances := { deposit := 0, mega_deposit := 0 } } } }
  else
    none

/-- `Member::did_deposit`. -/
def Member.did_deposit (m : Member) (amount : Nat) (mega : Bool) (owner : Pubkey) : Member :=
  let m :=
    if mega then
      { m with books := { m.books with
          mega_stake_intent := wadd m.books.mega_stake_intent amount } }
    else
      { m with books := { m.books with
          stake_intent := wadd m.books.stake_intent amount } }
  if owner = m.books.delegate.owner then
    if mega then
      { m with books := { m.books with delegate := { m.books.delegate with
          balances := { m.books.delegate.balances with
            mega_deposit := wadd m.books.delegate.balances.mega_deposit amount } } } }
    else
      { m with books := { m.books with delegate := { m.books.delegate with
          balances := { m.books.delegate.balances with
            deposit := wadd m.books.delegate.balances.deposit amount } } } }
  else
    if mega then
      { m with books := { m.books with main := { m.books.main with
          balances := { m.books.main.balances with
            mega_deposit := wadd m.books.main.balances.mega_deposit amount } } } }
    else
      { m with books := { m.books with main := { m.books.main with
          balances := { m.books.main.balances with
            deposit := wadd m.books.main.balances.deposit amount } } } }

/-- `Member::did_withdraw`. -/
def Member.did_withdraw (m : Member) (amount : Nat) (mega : Bool) (owner : Pubkey) : Member :=
  let m :=
    if mega then
      { m with books := { m.books with
          mega_stake_intent := wsub m.books.mega_stake_intent amount } }
    else
      { m with books := { m.books with
          stake_intent := wsub m.books.stake_intent amount } }
  if owner = m.books.delegate.owner then
    if mega then
      { m with books := { m.books with delegate := { m.books.delegate with
          balances := { m.books.delegate.balances with
            mega_deposit := wsub m.books.delegate.balances.mega_deposit amount } } } }
    else
      { m with books := { m.books with delegate := { m.books.delegate with
          balances := { m.books.delegate.balances with
            deposit := wsub m.books.delegate.balances.deposit amount } } } }
  else
    if mega then
      { m with books := { m.books with main := { m.books.main with
          balances := { m.books.main.balances with
            mega_deposit := wsub m.books.main.balances.mega_deposit amount } } } }
    else
      { m with books := { m.books with main := { m.books.main with
          balances := { m.books.main.balances with
            deposit := wsub m.books.main.balances.deposit amount } } } }

/-- `Member::spt_did_create`. Mirrors the source exactly: the pool-share
counter is incremented *before* `basket_quantities` is consulted, so the
returned state reflects that increment even on the error path. The result is
the final state paired with the `Result`. -/
def Member.spt_did_create (m : Member) (prices : PoolPrices) (amount : Nat) (mega : Bool) :
    Member × Except RegistryError Unit :=
  if mega then
    let m := { m with books := { m.books with
        spt_mega_amount := wadd m.books.spt_mega_amount amount } }
    match prices.basket_quantities amount mega with
    | Except.error e => (m, Except.error e)
    | Except.ok basket =>
      let m := { m with books := { m.books with
          stake_intent := wsub m.books.stake_intent basket.1,
          mega_stake_intent := wsub m.books.mega_stake_intent basket.2 } }
      ({ m with last_active_prices := prices }, Except.ok ())
  else
    let m := { m with books := { m.books with
        spt_amount := wadd m.books.spt_amount amount } }
    match prices.basket_quantities amount mega with
    | Except.error e => (m, Except.error e)
    | Except.ok basket =>
      let m := { m with books := { m.books with
          stake_intent := wsub m.books.stake_intent basket.1 } }
      ({ m with last_active_prices := prices }, Except.ok ())

/-- `Member::spt_did_redeem_start`. -/
def Member.spt_did_redeem_start (m : Member) (spt_amount : Nat) (mega : Bool) : Member :=
  if mega then
    { m with books := { m.books with
        spt_mega_amount := wsub m.books.spt_mega_amount spt_amount } }
  else
    { m with books := { m.books with
        spt_amount := wsub m.books.spt_amount spt_amount } }

/-- `Member::spt_did_redeem_end`. -/
def Member.spt_did_redeem_end (m : Member) (asset_amount : Nat) (mega_asset_amount : Nat) :
    Member :=
  { m with books := { m.books with
      stake_intent := wadd m.books.stake_intent asset_amount,
      mega_stake_intent := wadd m.books.mega_stake_intent mega_asset_amount } }

/-- A snapshot whose baskets are constant. -/
def pricesConst (b0 b1 : Nat) : PoolPrices :=
  { basket_quantities := fun _ _ => Except.ok (b0, b1) }

/-- A snapshot whose basket computation always fails. -/
def pricesFail : PoolPrices :=
  { basket_quantities := fun _ _ => Except.error RegistryError.PricingError }

/-- The spec's withdrawal scenario: `stake_intent = 1000`, delegate principal
`deposit = 200`, no pool-share holdings. Beneficiary (main owner) is `1`,
delegate owner is `2`. -/
def memberScenario : Member :=
  { initialized := true, registrar := 0, entity := 0, beneficiary := 1, generation := 0,
    watchtower := { authority := 0, dst := 0 },
    books :=
      { spt_amount := 0, spt_mega_amount := 0, stake_intent := 1000, mega_stake_intent := 0,
        main := { owner := 1, balances := { deposit := 0, mega_deposit := 0 } },
        delegate := { owner := 2, balances := { deposit := 200, mega_deposit := 0 } } },
    last_active_prices := pricesConst 0 0 }

/-- A freshly created member: all counters zero, beneficiary `1`,
delegate owner `2`. -/
def memberZero : Member :=
  { initialized := true, registrar := 0, entity := 0, beneficiary := 1, generation := 0,
    watchtower := { authority := 0, dst := 0 },
    books :=
      { spt_amount := 0, spt_mega_amount := 0, stake_intent := 0, mega_stake_intent := 0,
        main := { owner := 1, balances := { deposit := 0, mega_deposit := 0 } },
        delegate := { owner := 2, balances := { deposit := 0, mega_deposit := 0 } } },
    last_active_prices := pricesConst 0 0 }

/-- C5 (counterexample): the claim "`is_empty()` returns true iff both
`deposit` and `mega_deposit` are zero" fails at
`deposit = mega_deposit = 2 ^ 63`: the wrapping `u64` sum is `0`, so
`is_empty` returns `true` although neither field is zero. -/
theorem Balances.is_empty_wrap_counterexample :
    ¬ (Balances.is_empty
        { deposit := 9223372036854775808, mega_deposit := 9223372036854775808 } = true ↔
      (Balances.deposit
          { deposit := 9223372036854775808, mega_deposit := 9223372036854775808 } = 0
        ∧ Balances.mega_deposit
          { deposit := 9223372036854775808, mega_deposit := 9223372036854775808 } = 0)) := by
  decide

/-- C5 (amended): whenever `deposit + mega_deposit` does not overflow `u64`,
`is_empty()` returns `true` iff both `deposit` and `mega_deposit` are zero. -/
theorem Balances.is_empty_iff (b : Balances) (h : b.deposit + b.mega_deposit < U64size) :
    b.is_empty = true ↔ (b.deposit = 0 ∧ b.mega_deposit = 0) := by
  simp only [Balances.is_empty, wadd, beq_iff_eq]
  unfold U64size at *
  omega

theorem Balances.is_empty_iff_witness :
    Balances.is_empty { deposit := 3, mega_deposit := 5 } = true ↔
      (Balances.deposit { deposit := 3, mega_deposit := 5 } = 0
        ∧ Balances.mega_deposit { deposit := 3, mega_deposit := 5 } = 0) :=
  Balances.is_empty_iff { deposit := 3, mega_deposit := 5 } (by decide)

/-- C7: `set_delegate(new_owner)` aborts (both `assert!`s modelled by `none`)
exactly when the current delegate book's `deposit` or `mega_deposit` is
nonzero; when both are zero it replaces `books.delegate` by a fresh `Book`
owned by `new_owner` with zero balances, leaving every other `Member` field
unchanged. -/
theorem Member.set_delegate_spec (m : Member) (d : Pubkey) :
    (m.set_delegate d = none ↔
      ¬ (m.books.delegate.balances.deposit = 0 ∧ m.books.delegate.balances.mega_deposit = 0))
    ∧ (m.books.delegate.balances.deposit = 0 → m.books.delegate.balances.mega_deposit = 0 →
        m.set_delegate d = some { m with books := { m.books with
          delegate := { owner := d, balances := { deposit := 0, mega_deposit := 0 } } } }) := by
  unfold Member.set_delegate
  by_cases h : m.books.delegate.balances.deposit = 0 ∧ m.books.delegate.balances.mega_deposit = 0
  · simp [h]
  · constructor
    · simp [h]
    · intro h1 h2
      exact absurd ⟨h1, h2⟩ h

theorem Member.set_delegate_spec_witness :
    memberZero.set_delegate 9 = some { memberZero with books := { memberZero.books with
      delegate := { owner := 9, balances := { deposit := 0, mega_deposit := 0 } } } } :=
  (Member.set_delegate_spec memberZero 9).2 rfl rfl

/-- C9: `did_deposit(amount, mega, owner)` increments exactly one reserve
counter (`mega_stake_intent` when `mega`, else `stake_intent`) by `amount`
(`u64` addition) and exactly one book principal field by `amount`, selecting
the delegate book iff `owner = books.delegate.owner` and the main book
otherwise; no other `Member` field changes. -/
theorem Member.did_deposit_spec (m : Member) (amount : Nat) (mega : Bool) (owner : Pubkey) :
    m.did_deposit amount mega owner =
      if owner = m.books.delegate.owner then
        if mega then
          { m with books := { m.books with
              mega_stake_intent := wadd m.books.mega_stake_intent amount,
              delegate := { m.books.delegate with balances := { m.books.delegate.balances with
                mega_deposit := wadd m.books.delegate.balances.mega_deposit amount } } } }
        else
          { m with books := { m.books with
              stake_intent := wadd m.books.stake_intent amount,
              delegate := { m.books.delegate with balances := { m.books.delegate.balances with
                deposit := wadd m.books.delegate.balances.deposit amount } } } }
      else
        if mega then
          { m with books := { m.books with
              mega_stake_intent := wadd m.books.mega_stake_intent amount,
              main := { m.books.main with balances := { m.books.main.balances with
                mega_deposit := wadd m.books.main.balances.mega_deposit amount } } } }
        else
          { m with books := { m.books with
              stake_intent := wadd m.books.stake_intent amount,
              main := { m.books.main with balances := { m.books.main.balances with
                deposit := wadd m.books.main.balances.deposit amount } } } } := by
  cases mega <;> by_cases h : owner = m.books.delegate.owner <;>
    simp [Member.did_deposit, h]

/-- C2: under a successful basket computation, `can_afford` returns
`InsufficientStakeIntentBalance` iff `stake_intent < primary_cost` or
(`mega` and `mega_stake_intent < mega_cost`), and `Ok(true)` otherwise.
The method takes the member immutably; the embedding returns only the
result, so the state is never mutated by construction. -/
theorem Member.can_afford_iff (m : Member) (prices : PoolPrices) (spt_amount : Nat)
    (mega : Bool) (purchase_price : Nat × Nat)
    (hb : prices.basket_quantities spt_amount mega = Except.ok purchase_price) :
    m.can_afford prices spt_amount mega =
      if m.books.stake_intent < purchase_price.1
          ∨ (mega = true ∧ m.books.mega_stake_intent < purchase_price.2) then
        Except.error RegistryError.InsufficientStakeIntentBalance
      else
        Except.ok true := by
  unfold Member.can_afford
  rw [hb]
  cases mega <;> by_cases h1 : m.books.stake_intent < purchase_price.1 <;>
    by_cases h2 : m.books.mega_stake_intent < purchase_price.2 <;>
    simp [h1, h2]

theorem Member.can_afford_iff_witness :
    memberScenario.can_afford (pricesConst 400 0) 3 false =
      if memberScenario.books.stake_intent < (400, 0).1
          ∨ (false = true ∧ memberScenario.books.mega_stake_intent < (400, 0).2) then
        Except.error RegistryError.InsufficientStakeIntentBalance
      else
        Except.ok true :=
  Member.can_afford_iff memberScenario (pricesConst 400 0) 3 false (400, 0) rfl

/-- C1: for a non-delegate owner, with both baskets computed successfully,
`amount` within the relevant reserve, and the summed valuations fitting in
`u64`, `can_withdraw` returns `InsufficientBalance` exactly when the value
remaining after the withdrawal falls below the delegate's recorded
principal (`basket[0] + mega_basket[0] + stake_intent - amount <
delegate.deposit` for a primary withdrawal, `basket[1] + mega_stake_intent -
amount < delegate.mega_deposit` for a mega withdrawal), and `Ok(true)`
otherwise. -/
theorem Member.can_withdraw_solvency_iff
    (m : Member) (prices : PoolPrices) (amount : Nat) (mega : Bool) (owner : Pubkey)
    (basket mega_basket : Nat × Nat)
    (hb : prices.basket_quantities m.books.spt_amount false = Except.ok basket)
    (hmb : prices.basket_quantities m.books.spt_mega_amount true = Except.ok mega_basket)
    (howner : m.books.delegate.owner ≠ owner)
    (hamt : amount ≤ (if mega then m.books.mega_stake_intent else m.books.stake_intent))
    (hfit : basket.1 + mega_basket.1 + m.books.stake_intent < U64size)
    (hfitm : basket.2 + m.books.mega_stake_intent < U64size) :
    m.can_withdraw prices amount mega owner =
      if mega then
        if basket.2 + m.books.mega_stake_intent - amount <
            m.books.delegate.balances.mega_deposit then
          Except.error RegistryError.InsufficientBalance
        else
          Except.ok true
      else
        if basket.1 + mega_basket.1 + m.books.stake_intent - amount <
            m.books.delegate.balances.deposit then
          Except.error RegistryError.InsufficientBalance
        else
          Except.ok true := by
  unfold Member.can_withdraw
  rw [hb, hmb]
  cases mega
  · simp only [if_false, Bool.false_eq_true, ite_false] at *
    rw [if_neg (by omega), if_neg howner]
    rw [wadd_eq_of_lt basket.1 mega_basket.1 (by omega),
      wadd_eq_of_lt (basket.1 + mega_basket.1) m.books.stake_intent (by omega),
      wsub_eq_of_le (basket.1 + mega_basket.1 + m.books.stake_intent) amount (by omega)
        (by omega)]
  · simp only [eq_self_iff_true, if_true] at hamt ⊢
    rw [if_neg (by omega), if_neg howner]
    rw [wadd_eq_of_lt basket.2 m.books.mega_stake_intent (by omega),
      wsub_eq_of_le (basket.2 + m.books.mega_stake_intent) amount (by omega) (by omega)]

/-- C1 (witness, the spec scenario): `stake_intent = 1000`, delegate
`deposit = 200`, all baskets zero; a non-delegate primary withdrawal of 850
fails with `InsufficientBalance` and one of 700 returns `Ok(true)`. -/
theorem Member.can_withdraw_solvency_iff_witness :
    memberScenario.can_withdraw (pricesConst 0 0) 850 false 1 =
      Except.error RegistryError.InsufficientBalance
    ∧ memberScenario.can_withdraw (pricesConst 0 0) 700 false 1 = Except.ok true := by
  constructor
  · rw [Member.can_withdraw_solvency_iff memberScenario (pricesConst 0 0) 850 false 1
      (0, 0) (0, 0) rfl rfl (by decide) (by decide) (by decide) (by decide)]
    rfl
  · rw [Member.can_withdraw_solvency_iff memberScenario (pricesConst 0 0) 700 false 1
      (0, 0) (0, 0) rfl rfl (by decide) (by decide) (by decide) (by decide)]
    rfl

/-- C10 (counterexample): the claim quantifies over *every* price snapshot,
but `can_withdraw` computes both baskets before any rule is checked, so a
failing snapshot makes a delegate withdrawal within reserve return a pricing
error rather than `Ok(true)`: here `owner = 2` is the delegate owner and
`5 ≤ stake_intent = 1000`, yet the call returns `Err(PricingError)`. -/
theorem Member.can_withdraw_delegate_counterexample :
    memberScenario.can_withdraw pricesFail 5 false 2 =
      Except.error RegistryError.PricingError
    ∧ memberScenario.books.delegate.owner = 2
    ∧ 5 ≤ memberScenario.books.stake_intent :=
  ⟨rfl, rfl, by decide⟩

/-- C10 (amended): when both basket computations succeed and `owner` is the
delegate owner, `can_withdraw` returns `Ok(true)` whenever `amount` does not
exceed the relevant reserve, regardless of the delegate book's recorded
principal or the basket values. -/
theorem Member.can_withdraw_delegate_ok
    (m : Member) (prices : PoolPrices) (amount : Nat) (mega : Bool) (owner : Pubkey)
    (basket mega_basket : Nat × Nat)
    (hb : prices.basket_quantities m.books.spt_amount false = Except.ok basket)
    (hmb : prices.basket_quantities m.books.spt_mega_amount true = Except.ok mega_basket)
    (howner : m.books.delegate.owner = owner)
    (hamt : amount ≤ (if mega then m.books.mega_stake_intent else m.books.stake_intent)) :
    m.can_withdraw prices amount mega owner = Except.ok true := by
  unfold Member.can_withdraw
  rw [hb, hmb]
  cases mega
  · simp only [if_false, Bool.false_eq_true, ite_false] at *
    rw [if_neg (by omega), if_pos howner]
  · simp only [eq_self_iff_true, if_true] at hamt ⊢
    rw [if_neg (by omega), if_pos howner]

theorem Member.can_withdraw_delegate_ok_witness :
    memberScenario.can_withdraw (pricesConst 0 0) 5 false 2 = Except.ok true :=
  Member.can_withdraw_delegate_ok memberScenario (pricesConst 0 0) 5 false 2
    (0, 0) (0, 0) rfl rfl rfl (by decide)

/-- C3: under a fixed snapshot whose basket computation succeeds with
`basket`, and assuming the mint does not underflow the reserves,
`spt_did_create(prices, amount, mega)`, then `spt_did_redeem_start(amount,
mega)`, then `spt_did_redeem_end` with the basket amounts originally debited
(`basket[0]`, and `basket[1]` when `mega`, else `0`) restores `stake_intent`,
`mega_stake_intent`, `spt_amount`, and `spt_mega_amount` to their pre-mint
values. -/
theorem Member.spt_create_redeem_round_trip
    (m : Member) (prices : PoolPrices) (amount : Nat) (mega : Bool) (basket : Nat × Nat)
    (hwf : m.books.WF) (hamt : amount < U64size)
    (hb : prices.basket_quantities amount mega = Except.ok basket)
    (h1 : basket.1 ≤ m.books.stake_intent)
    (h2 : mega = true → basket.2 ≤ m.books.mega_stake_intent) :
    ((((m.spt_did_create prices amount mega).1.spt_did_redeem_start amount
          mega).spt_did_redeem_end basket.1
        (if mega then basket.2 else 0)).books.stake_intent = m.books.stake_intent)
    ∧ ((((m.spt_did_create prices amount mega).1.spt_did_redeem_start amount
          mega).spt_did_redeem_end basket.1
        (if mega then basket.2 else 0)).books.mega_stake_intent = m.books.mega_stake_intent)
    ∧ ((((m.spt_did_create prices amount mega).1.spt_did_redeem_start amount
          mega).spt_did_redeem_end basket.1
        (if mega then basket.2 else 0)).books.spt_amount = m.books.spt_amount)
    ∧ ((((m.spt_did_create prices amount mega).1.spt_did_redeem_start amount
          mega).spt_did_redeem_end basket.1
        (if mega then basket.2 else 0)).books.spt_mega_amount = m.books.spt_mega_amount) := by
  obtain ⟨w1, w2, w3, w4, -, -, -, -⟩ := hwf
  cases mega
  · simp only [Member.spt_did_create, Member.spt_did_redeem_start, Member.spt_did_redeem_end,
      hb, Bool.false_eq_true, ite_false, if_false]
    unfold wadd wsub U64size at *
    simp only [and_true, true_and]
    omega
  · replace h2 := h2 rfl
    simp only [Member.spt_did_create, Member.spt_did_redeem_start, Member.spt_did_redeem_end,
      hb, eq_self_iff_true, if_true]
    unfold wadd wsub U64size at *
    simp only [and_true, true_and]
    omega

theorem Member.spt_create_redeem_round_trip_witness :
    ((((memberScenario.spt_did_create (pricesConst 100 0) 100 false).1.spt_did_redeem_start 100
          false).spt_did_redeem_end 100 0).books.stake_intent
        = memberScenario.books.stake_intent)
    ∧ ((((memberScenario.spt_did_create (pricesConst 100 0) 100 false).1.spt_did_redeem_start 100
          false).spt_did_redeem_end 100 0).books.mega_stake_intent
        = memberScenario.books.mega_stake_intent)
    ∧ ((((memberScenario.spt_did_create (pricesConst 100 0) 100 false).1.spt_did_redeem_start 100
          false).spt_did_redeem_end 100 0).books.spt_amount
        = memberScenario.books.spt_amount)
    ∧ ((((memberScenario.spt_did_create (pricesConst 100 0) 100 false).1.spt_did_redeem_start 100
          false).spt_did_redeem_end 100 0).books.spt_mega_amount
        = memberScenario.books.spt_mega_amount) :=
  Member.spt_create_redeem_round_trip memberScenario (pricesConst 100 0) 100 false (100, 0)
    (by decide) (by decide) rfl (by decide) (fun h => by cases h)

/-- C4: `did_deposit(amount, mega, owner)` followed by
`did_withdraw(amount, mega, owner)` returns `stake_intent`,
`mega_stake_intent`, and the `deposit`/`mega_deposit` fields of both books to
their original values, assuming the deposit additions do not overflow
`u64`. -/
theorem Member.did_deposit_did_withdraw_inverse
    (m : Member) (amount : Nat) (mega : Bool) (owner : Pubkey)
    (hwf : m.books.WF) (hamt : amount < U64size)
    (hov : (if mega then m.books.mega_stake_intent else m.books.stake_intent) + amount < U64size)
    (hovb : (if owner = m.books.delegate.owner then
          (if mega then m.books.delegate.balances.mega_deposit
            else m.books.delegate.balances.deposit)
        else
          (if mega then m.books.main.balances.mega_deposit
            else m.books.main.balances.deposit)) + amount < U64size) :
    (((m.did_deposit amount mega owner).did_withdraw amount mega owner).books.stake_intent
        = m.books.stake_intent)
    ∧ (((m.did_deposit amount mega owner).did_withdraw amount mega owner).books.mega_stake_intent
        = m.books.mega_stake_intent)
    ∧ (((m.did_deposit amount mega owner).did_withdraw amount mega
          owner).books.main.balances.deposit = m.books.main.balances.deposit)
    ∧ (((m.did_deposit amount mega owner).did_withdraw amount mega
          owner).books.main.balances.mega_deposit = m.books.main.balances.mega_deposit)
    ∧ (((m.did_deposit amount mega owner).did_withdraw amount mega
          owner).books.delegate.balances.deposit = m.books.delegate.balances.deposit)
    ∧ (((m.did_deposit amount mega owner).did_withdraw amount mega
          owner).books.delegate.balances.mega_deposit
        = m.books.delegate.balances.mega_deposit) := by
  obtain ⟨-, -, w3, w4, w5, w6, w7, w8⟩ := hwf
  cases mega <;> by_cases h : owner = m.books.delegate.owner <;>
    simp [Member.did_deposit, Member.did_withdraw, h] <;>
    exact ⟨wsub_wadd_cancel _ _ (by omega) hamt, wsub_wadd_cancel _ _ (by omega) hamt⟩

theorem Member.did_deposit_did_withdraw_inverse_witness :
    (((memberScenario.did_deposit 7 false 1).did_withdraw 7 false 1).books.stake_intent
        = memberScenario.books.stake_intent)
    ∧ (((memberScenario.did_deposit 7 false 1).did_withdraw 7 false 1).books.mega_stake_intent
        = memberScenario.books.mega_stake_intent)
    ∧ (((memberScenario.did_deposit 7 false 1).did_withdraw 7 false
          1).books.main.balances.deposit = memberScenario.books.main.balances.deposit)
    ∧ (((memberScenario.did_deposit 7 false 1).did_withdraw 7 false
          1).books.main.balances.mega_deposit = memberScenario.books.main.balances.mega_deposit)
    ∧ (((memberScenario.did_deposit 7 false 1).did_withdraw 7 false
          1).books.delegate.balances.deposit = memberScenario.books.delegate.balances.deposit)
    ∧ (((memberScenario.did_deposit 7 false 1).did_withdraw 7 false
          1).books.delegate.balances.mega_deposit
        = memberScenario.books.delegate.balances.mega_deposit) :=
  Member.did_deposit_did_withdraw_inverse memberScenario 7 false 1
    (by decide) (by decide) (by decide) (by decide)

/-- C6: `did_deposit`, `did_withdraw`, `spt_did_redeem_start`,
`spt_did_redeem_end`, and (successful) `set_delegate` never change
`last_active_prices`; every successful `spt_did_create` sets it to the
supplied snapshot. -/
theorem Member.last_active_prices_frame
    (m : Member) (prices : PoolPrices) (amount aamt mamt : Nat) (mega : Bool)
    (owner d : Pubkey) :
    ((m.did_deposit amount mega owner).last_active_prices = m.last_active_prices)
    ∧ ((m.did_withdraw amount mega owner).last_active_prices = m.last_active_prices)
    ∧ ((m.spt_did_redeem_start amount mega).last_active_prices = m.last_active_prices)
    ∧ ((m.spt_did_redeem_end aamt mamt).last_active_prices = m.last_active_prices)
    ∧ (∀ mNew : Member, m.set_delegate d = some mNew →
        mNew.last_active_prices = m.last_active_prices)
    ∧ ((m.spt_did_create prices amount mega).2 = Except.ok () →
        (m.spt_did_create prices amount mega).1.last_active_prices = prices) := by
  refine ⟨?_, ?_, ?_, ?_, ?_, ?_⟩
  · cases mega <;> by_cases h : owner = m.books.delegate.owner <;>
      simp [Member.did_deposit, h]
  · cases mega <;> by_cases h : owner = m.books.delegate.owner <;>
      simp [Member.did_withdraw, h]
  · cases mega <;> simp [Member.spt_did_redeem_start]
  · rfl
  · intro mNew hsome
    unfold Member.set_delegate at hsome
    split_ifs at hsome
    · cases hsome
      rfl
  · intro hok
    cases mega
    · rcases hq : prices.basket_quantities amount false with e | basket
      · rw [Member.spt_did_create] at hok
        simp [hq] at hok
      · simp [Member.spt_did_create, hq]
    · rcases hq : prices.basket_quantities amount true with e | basket
      · rw [Member.spt_did_create] at hok
        simp [hq] at hok
      · simp [Member.spt_did_create, hq]

theorem Member.last_active_prices_frame_witness :
    ((memberScenario.did_deposit 5 false 1).last_active_prices
        = memberScenario.last_active_prices)
    ∧ ((memberScenario.spt_did_create (pricesConst 1 0) 2 false).1.last_active_prices
        = pricesConst 1 0) :=
  ⟨(Member.last_active_prices_frame memberScenario (pricesConst 1 0) 5 0 0 false 1 3).1,
    (Member.last_active_prices_frame memberScenario (pricesConst 1 0) 2 0 0 false 1
      3).2.2.2.2.2 rfl⟩

/-- C8 (counterexample): `spt_did_create` is not atomic on pricing failure.
The pool-share counter is incremented before `basket_quantities` is called,
so with a failing snapshot the error is propagated but `spt_amount` has
already changed from 0 to 5. -/
theorem Member.spt_did_create_counterexample :
    ((memberZero.spt_did_create pricesFail 5 false).2
        = Except.error RegistryError.PricingError)
    ∧ ((memberZero.spt_did_create pricesFail 5 false).1.books.spt_amount = 5)
    ∧ (memberZero.books.spt_amount = 0) :=
  ⟨rfl, rfl, rfl⟩

/-- C8 (amended): if `basket_quantities` errors during `spt_did_create`, the
error is propagated and `stake_intent`, `mega_stake_intent`, and
`last_active_prices` are unchanged, but the pool-share counter selected by
`mega` has already been incremented by `amount`. -/
theorem Member.spt_did_create_error_effects
    (m : Member) (prices : PoolPrices) (amount : Nat) (mega : Bool) (e : RegistryError)
    (hb : prices.basket_quantities amount mega = Except.error e) :
    ((m.spt_did_create prices amount mega).2 = Except.error e)
    ∧ ((m.spt_did_create prices amount mega).1.books.stake_intent = m.books.stake_intent)
    ∧ ((m.spt_did_create prices amount mega).1.books.mega_stake_intent
        = m.books.mega_stake_intent)
    ∧ ((m.spt_did_create prices amount mega).1.last_active_prices = m.last_active_prices)
    ∧ ((m.spt_did_create prices amount mega).1.books.spt_amount
        = if mega then m.books.spt_amount else wadd m.books.spt_amount amount)
    ∧ ((m.spt_did_create prices amount mega).1.books.spt_mega_amount
        = if mega then wadd m.books.spt_mega_amount amount else m.books.spt_mega_amount) := by
  cases mega <;> simp [Member.spt_did_create, hb]

theorem Member.spt_did_create_error_effects_witness :
    ((memberScenario.spt_did_create pricesFail 5 false).2
        = Except.error RegistryError.PricingError)
    ∧ ((memberScenario.spt_did_create pricesFail 5 false).1.books.stake_intent
        = memberScenario.books.stake_intent)
    ∧ ((memberScenario.spt_did_create pricesFail 5 false).1.books.mega_stake_intent
        = memberScenario.books.mega_stake_intent)
    ∧ ((memberScenario.spt_did_create pricesFail 5 false).1.last_active_prices
        = memberScenario.last_active_prices)
    ∧ ((memberScenario.spt_did_create pricesFail 5 false).1.books.spt_amount
        = if false then memberScenario.books.spt_amount
          else wadd memberScenario.books.spt_amount 5)
    ∧ ((memberScenario.spt_did_create pricesFail 5 false).1.books.spt_mega_amount
        = if false then wadd memberScenario.books.spt_mega_amount 5
          else memberScenario.books.spt_mega_amount) :=
  Member.spt_did_create_error_effects memberScenario pricesFail 5 false
    RegistryError.PricingError rfl
